import Mathlib

/-!
Verification development for the node-fastify enrollment backend.

Strings are modelled as Lean `String`s (lists of characters); the two
regular expressions per role kind in `extractRole` are modelled as
leftmost-match scanners; the relational store is modelled as lists of
rows, and each route handler becomes a pure function from a database
state and a parsed request to a reply together with the new state.
-/

namespace NodeFastify

/-! ## Role / authorization predicate (services/utils.ts, `extractRole`) -/

/-- Character class [0-9a-f] (lowercase hexadecimal digit). -/
def isHexLower (c : Char) : Bool :=
  ('0' ≤ c && c ≤ '9') || ('a' ≤ c && c ≤ 'f')

/-- Character class [0-9a-f] evaluated under the /i flag. -/
def isHexCI (c : Char) : Bool :=
  isHexLower c || ('A' ≤ c && c ≤ 'F')

/-- Character class [89ab] evaluated under the /i flag. -/
def isVariantCI (c : Char) : Bool :=
  c == '8' || c == '9' || c == 'a' || c == 'b' || c == 'A' || c == 'B'

/-- Character class [0-9a-f-] of the loose fallback pattern (case-sensitive). -/
def isLooseChar (c : Char) : Bool :=
  isHexLower c || c == '-'

/-- One literal pattern character (lowercase letter or ':') matched
case-insensitively against an input character. -/
def ciMatches (p c : Char) : Bool :=
  c == p || (('a' ≤ p && p ≤ 'z') && c.toNat + 32 == p.toNat)

/-- Match a literal pattern (given in lowercase) case-insensitively at the
head of the input; on success return the remaining input. -/
def dropLitCI : List Char → List Char → Option (List Char)
  | [], cs => some cs
  | _ :: _, [] => none
  | p :: ps, c :: cs => if ciMatches p c then dropLitCI ps cs else none

/-- Match a literal pattern case-sensitively at the head of the input. -/
def dropLit : List Char → List Char → Option (List Char)
  | [], cs => some cs
  | _ :: _, [] => none
  | p :: ps, c :: cs => if p == c then dropLit ps cs else none

/-- Consume exactly `n` characters satisfying `p`; return them with the rest. -/
def takeClass (p : Char → Bool) : Nat → List Char → Option (List Char × List Char)
  | 0, cs => some ([], cs)
  | _ + 1, [] => none
  | n + 1, c :: cs =>
    if p c then (takeClass p n cs).map (fun r => (c :: r.1, r.2)) else none

/-- Consume one character satisfying `p`. -/
def takeOne (p : Char → Bool) : List Char → Option (Char × List Char)
  | [] => none
  | c :: cs => if p c then some (c, cs) else none

/-- Parse the body of the strict pattern
[0-9a-f]-8 '-' [0-9a-f]-4 '-' '7' [0-9a-f]-3 '-' [89ab] [0-9a-f]-3 '-' [0-9a-f]-12
under the /i flag, returning the 36 captured characters. -/
def parseUuidV7 (cs : List Char) : Option (List Char) := do
  let (g1, r1) ← takeClass isHexCI 8 cs
  let (d1, r2) ← takeOne (fun c => c == '-') r1
  let (g2, r3) ← takeClass isHexCI 4 r2
  let (d2, r4) ← takeOne (fun c => c == '-') r3
  let (s7, r5) ← takeOne (fun c => c == '7') r4
  let (g3, r6) ← takeClass isHexCI 3 r5
  let (d3, r7) ← takeOne (fun c => c == '-') r6
  let (v, r8) ← takeOne isVariantCI r7
  let (g4, r9) ← takeClass isHexCI 3 r8
  let (d4, r10) ← takeOne (fun c => c == '-') r9
  let (g5, _) ← takeClass isHexCI 12 r10
  return g1 ++ [d1] ++ g2 ++ [d2] ++ [s7] ++ g3 ++ [d3] ++ [v] ++ g4 ++ [d4] ++ g5

/-- The strict alternative anchored at the current position:
the kind literal, ':', then the UUID-v7 shape, all under /i. -/
def matchStrictAt (kind : List Char) (cs : List Char) : Option (List Char) :=
  (dropLitCI (kind ++ [':']) cs).bind parseUuidV7

/-- The loose alternative anchored at the current position: the kind
literal, ':', then a maximal nonempty run of [0-9a-f-] (case-sensitive). -/
def matchLooseAt (kind : List Char) (cs : List Char) : Option (List Char) :=
  (dropLit (kind ++ [':']) cs).bind fun rest =>
    match rest.takeWhile isLooseChar with
    | [] => none
    | c :: cs2 => some (c :: cs2)

/-- Leftmost-match semantics of RegExp.prototype.match: try the pattern at
every start position from the left, take the first success. -/
def scanLeftmost (f : List Char → Option (List Char)) : List Char → Option (List Char)
  | [] => f []
  | c :: cs =>
    match f (c :: cs) with
    | some r => some r
    | none => scanLeftmost f cs

/-- Capture group of the strict regular expression over a whole string. -/
def strictCapture (kind : List Char) (s : String) : Option (List Char) :=
  scanLeftmost (matchStrictAt kind) s.toList

/-- Capture group of the loose regular expression over a whole string. -/
def looseCapture (kind : List Char) (s : String) : Option (List Char) :=
  scanLeftmost (matchLooseAt kind) s.toList

def teacherKind : List Char := "teacher".toList

def adminKind : List Char := "admin".toList

/-- A JavaScript value held by `id1` .. `id4` in `extractRole`: either the
captured string, or the fresh `Invalid id` object built by the validating
`map` callback. Distinct `obj` tags model distinct object identities. -/
inductive JsVal where
  | str (s : List Char)
  | obj (tag : Nat)
deriving DecidableEq

/-- The validating callback `i => if (!i?.[0] || !i?.[1]) then object else i`
applied to a capture: a missing capture or a capture shorter than two
characters becomes a fresh object. -/
def validateId (tag : Nat) : Option (List Char) → JsVal
  | none => .obj tag
  | some s => if s.length < 2 then .obj tag else .str s

/-- JavaScript `===` between two slot values: strings compare by value,
objects by identity, and a string never equals an object. -/
def jsEq : JsVal → JsVal → Bool
  | .str a, .str b => a == b
  | .obj a, .obj b => a == b
  | _, _ => false

/-- JavaScript `===` between a slot value and the owner-id string. -/
def jsEqStr : JsVal → List Char → Bool
  | .str a, b => a == b
  | .obj _, _ => false

/-- Embedding of `extractRole(requestRole, Id, requestLog?)`.
A `null` Id throws inside the try block; the catch logs and the function
returns false. Otherwise the four regular expressions are evaluated, the
captures validated into `id1` .. `id4`, and the chain
`if (id1===id2) ... else if (id3===id4) ... else return false` decides. -/
def extractRole (requestRole : String) (ownerIdOpt : Option String) : Bool :=
  match ownerIdOpt with
  | none => false
  | some ownerId =>
    let id1 := validateId 0 (strictCapture teacherKind requestRole)
    let id2 := validateId 1 (looseCapture teacherKind requestRole)
    let id3 := validateId 2 (strictCapture adminKind requestRole)
    let id4 := validateId 3 (looseCapture adminKind requestRole)
    if jsEq id1 id2 then jsEqStr id1 ownerId.toList
    else if jsEq id3 id4 then jsEqStr id3 ownerId.toList
    else false

example : extractRole "teacher:abc" (some "abc") = false := by decide

example : extractRole "teacher:abc" (some "xyz") = false := by decide

example : extractRole "teacher:abc" none = false := by decide

example :
    extractRole "teacher:00000000-0000-7000-8000-000000000000"
      (some "00000000-0000-7000-8000-000000000000") = true := by decide

example :
    extractRole "admin:00000000-0000-7000-8000-000000000000"
      (some "00000000-0000-7000-8000-000000000000") = true := by decide

example :
    extractRole "teacher:00000000-0000-7000-8000-000000000000"
      (some "ffffffff-0000-7000-8000-000000000000") = false := by decide

/-- Agreement of the two alternatives of one kind: the id both the strict
and the loose pattern extract, when they extract the same id of length at
least two (the length bound mirrors the validating callback). -/
def agreedCapture (kind : List Char) (r : String) : Option (List Char) :=
  match strictCapture kind r, looseCapture kind r with
  | some a, some b => if a = b ∧ 2 ≤ a.length then some a else none
  | _, _ => none

theorem jsEq_validateId_iff (t1 t2 : Nat) (h : t1 ≠ t2) (a b : Option (List Char)) :
    jsEq (validateId t1 a) (validateId t2 b) = true ↔
      ∃ x, a = some x ∧ b = some x ∧ 2 ≤ x.length := by
  constructor
  · intro heq
    rcases a with _ | x
    · rcases b with _ | y
      · simp [validateId, jsEq, h] at heq
      · by_cases hy : y.length < 2 <;> simp [validateId, hy, jsEq, h] at heq
    · rcases b with _ | y
      · by_cases hx : x.length < 2 <;> simp [validateId, hx, jsEq, h] at heq
      · by_cases hx : x.length < 2 <;> by_cases hy : y.length < 2 <;>
          simp [validateId, hx, hy, jsEq, h] at heq
        exact ⟨x, rfl, by rw [heq], by omega⟩
  · rintro ⟨x, rfl, rfl, hlen⟩
    have hx : ¬ x.length < 2 := by omega
    simp [validateId, hx, jsEq]

theorem jsEqStr_validateId_iff (t : Nat) (a : Option (List Char)) (o : List Char) :
    jsEqStr (validateId t a) o = true ↔ a = some o ∧ 2 ≤ o.length := by
  constructor
  · intro heq
    rcases a with _ | x
    · simp [validateId, jsEqStr] at heq
    · by_cases hx : x.length < 2 <;> simp [validateId, hx, jsEqStr] at heq
      subst heq
      exact ⟨rfl, by omega⟩
  · rintro ⟨rfl, hlen⟩
    have hx : ¬ o.length < 2 := by omega
    simp [validateId, hx, jsEqStr]

theorem agreedCapture_eq_some_iff (k : List Char) (r : String) (x : List Char) :
    agreedCapture k r = some x ↔
      strictCapture k r = some x ∧ looseCapture k r = some x ∧ 2 ≤ x.length := by
  unfold agreedCapture
  rcases hs : strictCapture k r with _ | a <;> rcases hl : looseCapture k r with _ | b
  · simp
  · simp
  · simp
  · dsimp only
    by_cases hab : a = b ∧ 2 ≤ a.length
    · rw [if_pos hab]
      constructor
      · intro hax
        refine ⟨hax, ?_, ?_⟩
        · rw [← hab.1]
          exact hax
        · rw [← Option.some.inj hax]
          exact hab.2
      · rintro ⟨hax, _, _⟩
        exact hax
    · rw [if_neg hab]
      constructor
      · intro hno
        exact Option.noConfusion hno
      · rintro ⟨hax, hbx, hlen⟩
        exfalso
        have hax2 : a = x := Option.some.inj hax
        have hbx2 : b = x := Option.some.inj hbx
        exact hab ⟨hax2.trans hbx2.symm, by rw [hax2]; exact hlen⟩

theorem jsEq_branch_iff (t1 t2 : Nat) (h : t1 ≠ t2) (k : List Char) (r : String) :
    jsEq (validateId t1 (strictCapture k r)) (validateId t2 (looseCapture k r)) = true ↔
      ∃ x, agreedCapture k r = some x := by
  rw [jsEq_validateId_iff t1 t2 h]
  constructor
  · rintro ⟨x, hs, hl, hlen⟩
    exact ⟨x, (agreedCapture_eq_some_iff k r x).2 ⟨hs, hl, hlen⟩⟩
  · rintro ⟨x, hx⟩
    rcases (agreedCapture_eq_some_iff k r x).1 hx with ⟨hs, hl, hlen⟩
    exact ⟨x, hs, hl, hlen⟩

/-- C1 (amended characterization): with a non-null owner id, `extractRole`
returns true exactly when, for one kind, the strict and the loose pattern
extract the same id and that id is the owner id — teacher tested first,
admin consulted only when the teacher captures do not agree. -/
theorem extractRole_true_iff (r o : String) :
    extractRole r (some o) = true ↔
      (agreedCapture teacherKind r = some o.toList ∨
        (agreedCapture teacherKind r = none ∧ agreedCapture adminKind r = some o.toList)) := by
  have h01 : (0 : Nat) ≠ 1 := by omega
  have h23 : (2 : Nat) ≠ 3 := by omega
  simp only [extractRole]
  cases hb1 : jsEq (validateId 0 (strictCapture teacherKind r))
      (validateId 1 (looseCapture teacherKind r)) with
  | true =>
    rw [if_pos rfl, jsEqStr_validateId_iff]
    rcases (jsEq_branch_iff 0 1 h01 teacherKind r).1 hb1 with ⟨x, hx⟩
    rcases (agreedCapture_eq_some_iff teacherKind r x).1 hx with ⟨hs, hl, hlen⟩
    constructor
    · rintro ⟨hso, _⟩
      rw [hs] at hso
      have hxo := Option.some.inj hso
      exact Or.inl (by rw [← hxo]; exact hx)
    · rintro (hAo | ⟨hnone, _⟩)
      · rcases (agreedCapture_eq_some_iff teacherKind r o.toList).1 hAo with ⟨hs2, _, hlen2⟩
        exact ⟨hs2, hlen2⟩
      · rw [hnone] at hx
        exact Option.noConfusion hx
  | false =>
    have hT : agreedCapture teacherKind r = none := by
      rcases hT2 : agreedCapture teacherKind r with _ | x
      · rfl
      · have hcon := (jsEq_branch_iff 0 1 h01 teacherKind r).2 ⟨x, hT2⟩
        rw [hb1] at hcon
        exact Bool.noConfusion hcon
    rw [if_neg (by simp)]
    cases hb2 : jsEq (validateId 2 (strictCapture adminKind r))
        (validateId 3 (looseCapture adminKind r)) with
    | true =>
      rw [if_pos rfl, jsEqStr_validateId_iff]
      rcases (jsEq_branch_iff 2 3 h23 adminKind r).1 hb2 with ⟨y, hy⟩
      rcases (agreedCapture_eq_some_iff adminKind r y).1 hy with ⟨hs, hl, hlen⟩
      constructor
      · rintro ⟨hso, _⟩
        rw [hs] at hso
        have hyo := Option.some.inj hso
        exact Or.inr ⟨hT, by rw [← hyo]; exact hy⟩
      · rintro (hAo | ⟨_, hAo⟩)
        · rw [hT] at hAo
          exact Option.noConfusion hAo
        · rcases (agreedCapture_eq_some_iff adminKind r o.toList).1 hAo with ⟨hs2, _, hlen2⟩
          exact ⟨hs2, hlen2⟩
    | false =>
      rw [if_neg (by simp)]
      constructor
      · intro hfalse
        exact Bool.noConfusion hfalse
      · rintro (hAo | ⟨_, hAo⟩)
        · rw [hT] at hAo
          exact Option.noConfusion hAo
        · have hcon := (jsEq_branch_iff 2 3 h23 adminKind r).2 ⟨o.toList, hAo⟩
          rw [hb2] at hcon
          exact hcon

/-- C1 (counterexample): on requestRole `teacher:abc` and owner id `abc`
the loose fallback alone extracts exactly the owner id, yet `extractRole`
returns false — extraction by a single alternative does not suffice. -/
theorem extractRole_single_alternative_counterexample :
    looseCapture teacherKind "teacher:abc" = some "abc".toList ∧
      extractRole "teacher:abc" (some "abc") = false := by
  constructor
  · decide
  · decide

/-- C2: `extractRole` is a total boolean function, and a null owner id is
mapped (through the internal throw/catch) to the return value false. -/
theorem extractRole_total_and_null_false :
    (∀ r : String, extractRole r none = false) ∧
      (∀ (r : String) (i : Option String),
        extractRole r i = false ∨ extractRole r i = true) := by
  constructor
  · intro r
    rfl
  · intro r i
    cases h : extractRole r i
    · exact Or.inl rfl
    · exact Or.inr rfl

/-! ## Enrollment number generator (services/enrollments, `generateEnrollmentNumber`) -/

/-- Decimal digit character. -/
def digitChar : Nat → Char
  | 0 => '0'
  | 1 => '1'
  | 2 => '2'
  | 3 => '3'
  | 4 => '4'
  | 5 => '5'
  | 6 => '6'
  | 7 => '7'
  | 8 => '8'
  | _ => '9'

/-- Decimal digits of a number, most significant first (fuelled helper). -/
def numDigitsAux : Nat → Nat → List Char
  | 0, _ => []
  | fuel + 1, n =>
    if n < 10 then [digitChar n]
    else numDigitsAux fuel (n / 10) ++ [digitChar (n % 10)]

/-- Decimal digits of a number, most significant first: the character list
of JavaScript Number.prototype.toString for a natural number. -/
def numDigits (n : Nat) : List Char := numDigitsAux (n + 1) n

/-- JavaScript String.prototype.slice(-2): the last two characters (the
whole string when it is shorter than two characters). -/
def sliceLastTwo (cs : List Char) : List Char := cs.drop (cs.length - 2)

/-- Embedding of `generateEnrollmentNumber`. The current date is made
explicit: `year` is getFullYear(), `month` is getMonth()+1 (1..12),
and `rand` is the integer part of Math.random()*9000 (0..8999), so that
1000 + rand is Math.floor(1000 + Math.random()*9000). -/
def generateEnrollmentNumber (year month rand : Nat) : String :=
  let yearStr := sliceLastTwo (numDigits year)
  let semester : Nat := if month ≤ 6 then 1 else 2
  let randomNum := 1000 + rand
  ⟨yearStr ++ ('.' :: numDigits semester) ++ ('.' :: numDigits randomNum)⟩

/-- Decimal digit character class. -/
def isDigit (c : Char) : Bool := '0' ≤ c && c ≤ '9'

/-- The shape required by the regular expression
caret digit digit dot [12] dot digit digit digit digit dollar. -/
def matchesEnrollmentPatternL : List Char → Bool
  | [y1, y2, p1, sd, p2, r1, r2, r3, r4] =>
    isDigit y1 && isDigit y2 && p1 == '.' && (sd == '1' || sd == '2') &&
      p2 == '.' && isDigit r1 && isDigit r2 && isDigit r3 && isDigit r4
  | _ => false

def matchesEnrollmentPattern (s : String) : Bool := matchesEnrollmentPatternL s.toList

example : generateEnrollmentNumber 2025 10 4283 = "25.2.5283" := by decide

example : matchesEnrollmentPattern (generateEnrollmentNumber 2025 3 0) = true := by decide

theorem numDigitsAux_stable (n : Nat) : ∀ f1 f2 : Nat, n < f1 → n < f2 →
    numDigitsAux f1 n = numDigitsAux f2 n := by
  induction n using Nat.strong_induction_on with
  | _ n ih =>
    intro f1 f2 h1 h2
    rcases f1 with _ | f1
    · omega
    rcases f2 with _ | f2
    · omega
    simp only [numDigitsAux]
    by_cases h10 : n < 10
    · rw [if_pos h10, if_pos h10]
    · rw [if_neg h10, if_neg h10]
      congr 1
      exact ih (n / 10) (by omega) f1 f2 (by omega) (by omega)

theorem numDigits_lt10 (n : Nat) (h : n < 10) : numDigits n = [digitChar n] := by
  simp only [numDigits, numDigitsAux, if_pos h]

theorem numDigits_ge10 (n : Nat) (h : 10 ≤ n) :
    numDigits n = numDigits (n / 10) ++ [digitChar (n % 10)] := by
  simp only [numDigits, numDigitsAux, if_neg (by omega : ¬ n < 10)]
  congr 1
  exact numDigitsAux_stable (n / 10) n (n / 10 + 1) (by omega) (by omega)

theorem isDigit_digitChar (n : Nat) : isDigit (digitChar n) = true := by
  rcases n with _ | _ | _ | _ | _ | _ | _ | _ | _ | m <;> rfl

theorem sliceLastTwo_append_two (xs : List Char) (a b : Char) :
    sliceLastTwo (xs ++ [a, b]) = [a, b] := by
  unfold sliceLastTwo
  have hlen : (xs ++ [a, b]).length - 2 = xs.length := by
    rw [List.length_append]
    simp
  rw [hlen]
  exact List.drop_left xs [a, b]

theorem sliceLastTwo_numDigits (n : Nat) (h : 10 ≤ n) :
    sliceLastTwo (numDigits n) = [digitChar (n / 10 % 10), digitChar (n % 10)] := by
  by_cases h2 : n < 100
  · have hq : n / 10 < 10 := by omega
    rw [numDigits_ge10 n h, numDigits_lt10 (n / 10) hq, Nat.mod_eq_of_lt hq]
    rfl
  · have h3 : 10 ≤ n / 10 := by omega
    rw [numDigits_ge10 n h, numDigits_ge10 (n / 10) h3, List.append_assoc]
    exact sliceLastTwo_append_two _ _ _

theorem numDigits_four (k : Nat) (h1 : 1000 ≤ k) (h2 : k ≤ 9999) :
    numDigits k = [digitChar (k / 1000), digitChar (k / 100 % 10),
      digitChar (k / 10 % 10), digitChar (k % 10)] := by
  have e1 : k / 10 / 10 = k / 100 := by omega
  have e2 : k / 100 / 10 = k / 1000 := by omega
  have ha : 10 ≤ k / 10 := by omega
  have hb : 10 ≤ k / 100 := by omega
  have hc : k / 1000 < 10 := by omega
  rw [numDigits_ge10 k (by omega), numDigits_ge10 (k / 10) ha, e1,
    numDigits_ge10 (k / 100) hb, e2, numDigits_lt10 (k / 1000) hc]
  simp

/-- C7: with the current year at least two digits wide, a month in 1..12
and the random draw in range, the generated enrollment number has the
shape dd.s.dddd, its first component is the zero-padded year mod 100, its
middle digit is 1 exactly for months 1..6, and its last component is the
decimal form of 1000+rand, an integer in 1000..9999. -/
theorem generateEnrollmentNumber_format (year month rand : Nat)
    (hy : 10 ≤ year) (hm1 : 1 ≤ month) (hm2 : month ≤ 12) (hr : rand ≤ 8999) :
    matchesEnrollmentPattern (generateEnrollmentNumber year month rand) = true ∧
    (generateEnrollmentNumber year month rand).toList =
      [digitChar (year % 100 / 10), digitChar (year % 100 % 10), '.',
        (if month ≤ 6 then '1' else '2'), '.',
        digitChar ((1000 + rand) / 1000), digitChar ((1000 + rand) / 100 % 10),
        digitChar ((1000 + rand) / 10 % 10), digitChar ((1000 + rand) % 10)] ∧
    1000 ≤ 1000 + rand ∧ 1000 + rand ≤ 9999 := by
  have h1000a : 1000 ≤ 1000 + rand := by omega
  have h1000b : 1000 + rand ≤ 9999 := by omega
  have e1 : year / 10 % 10 = year % 100 / 10 := by omega
  have e2 : year % 10 = year % 100 % 10 := by omega
  have htl : (generateEnrollmentNumber year month rand).toList =
      [digitChar (year % 100 / 10), digitChar (year % 100 % 10), '.',
        (if month ≤ 6 then '1' else '2'), '.',
        digitChar ((1000 + rand) / 1000), digitChar ((1000 + rand) / 100 % 10),
        digitChar ((1000 + rand) / 10 % 10), digitChar ((1000 + rand) % 10)] := by
    show sliceLastTwo (numDigits year) ++
        ('.' :: numDigits (if month ≤ 6 then 1 else 2)) ++
        ('.' :: numDigits (1000 + rand)) = _
    rw [sliceLastTwo_numDigits year hy, numDigits_four (1000 + rand) h1000a h1000b,
      e1, e2]
    by_cases h6 : month ≤ 6
    · rw [if_pos h6, if_pos h6, numDigits_lt10 1 (by omega)]
      simp [digitChar]
    · rw [if_neg h6, if_neg h6, numDigits_lt10 2 (by omega)]
      simp [digitChar]
  refine ⟨?_, htl, h1000a, h1000b⟩
  show matchesEnrollmentPatternL (generateEnrollmentNumber year month rand).toList = true
  rw [htl]
  by_cases h6 : month ≤ 6 <;>
    simp [h6, matchesEnrollmentPatternL, isDigit_digitChar]

/-- C7 witness: a concrete generation date and draw. -/
theorem generateEnrollmentNumber_format_witness :
    matchesEnrollmentPattern (generateEnrollmentNumber 2026 10 4283) = true ∧
    (generateEnrollmentNumber 2026 10 4283).toList =
      [digitChar (2026 % 100 / 10), digitChar (2026 % 100 % 10), '.',
        (if (10 : Nat) ≤ 6 then '1' else '2'), '.',
        digitChar ((1000 + 4283) / 1000), digitChar ((1000 + 4283) / 100 % 10),
        digitChar ((1000 + 4283) / 10 % 10), digitChar ((1000 + 4283) % 10)] ∧
    1000 ≤ 1000 + 4283 ∧ 1000 + 4283 ≤ 9999 :=
  generateEnrollmentNumber_format 2026 10 4283 (by decide) (by decide) (by decide)
    (by decide)

/-! ## Data model (db/schema.ts): rows and the relational store -/

structure UserRow where
  id : String
  name : String
  email : String
  password : String
  role : String
deriving DecidableEq

structure TeacherRow where
  id : String
  name : String
  email : String
  password : String
  role : String
deriving DecidableEq

structure CourseRow where
  id : String
  title : String
  description : String
  workload : String
  department : String
  createdAt : Nat
  updatedAt : Nat
  teachersId : String
deriving DecidableEq

structure ClassRow where
  id : String
  courseId : String
  teacherId : String
  name : String
  semester : String
  schedule : String
  createdAt : Nat
deriving DecidableEq

structure EnrollmentRow where
  enrollmentId : String
  userId : String
  classId : String
  enrolledAt : Nat
  enrollment : String
  isActive : Bool
deriving DecidableEq

structure DB where
  users : List UserRow
  teachers : List TeacherRow
  courses : List CourseRow
  classes : List ClassRow
  enrollments : List EnrollmentRow
deriving DecidableEq

/-! ## Timestamp serialization (Date.prototype.toISOString) -/

def pad2 (n : Nat) : List Char :=
  if n < 10 then '0' :: numDigits n else numDigits n

def pad3 (n : Nat) : List Char :=
  if n < 10 then '0' :: '0' :: numDigits n
  else if n < 100 then '0' :: numDigits n
  else numDigits n

def pad4 (n : Nat) : List Char :=
  if n < 10 then '0' :: '0' :: '0' :: numDigits n
  else if n < 100 then '0' :: '0' :: numDigits n
  else if n < 1000 then '0' :: numDigits n
  else numDigits n

/-- Civil date (year, month, day) from days since the Unix epoch, for
dates at or after 1970-01-01 (era-based conversion, as performed by
JavaScript engines behind Date.prototype.toISOString). -/
def civilFromDays (z0 : Nat) : Nat × Nat × Nat :=
  let z := z0 + 719468
  let era := z / 146097
  let doe := z % 146097
  let yoe := (doe - doe / 1460 + doe / 36524 - doe / 146096) / 365
  let y := yoe + era * 400
  let doy := doe - (365 * yoe + yoe / 4 - yoe / 100)
  let mp := (5 * doy + 2) / 153
  let d := doy - (153 * mp + 2) / 5 + 1
  let m := if mp < 10 then mp + 3 else mp - 9
  (if m ≤ 2 then y + 1 else y, m, d)

/-- Embedding of Date.prototype.toISOString on non-negative epoch
milliseconds: the string YYYY-MM-DDTHH:MM:SS.mmmZ. -/
def toISOString (t : Nat) : String :=
  let days := t / 86400000
  let msOfDay := t % 86400000
  let hh := msOfDay / 3600000
  let mm := msOfDay % 3600000 / 60000
  let ss := msOfDay % 60000 / 1000
  let ms := msOfDay % 1000
  let ymd := civilFromDays days
  ⟨pad4 ymd.1 ++ ('-' :: pad2 ymd.2.1) ++ ('-' :: pad2 ymd.2.2) ++
    ('T' :: pad2 hh) ++ (':' :: pad2 mm) ++ (':' :: pad2 ss) ++
    ('.' :: pad3 ms) ++ ['Z']⟩

example : toISOString 0 = "1970-01-01T00:00:00.000Z" := by decide

example : toISOString 1760140800000 = "2025-10-11T00:00:00.000Z" := by decide

/-! ## Create enrollment (routers/enrollments/enrollments-post.ts) -/

/-- The enrollment object of a 2xx response body: enrolledAt serialized. -/
structure EnrollmentJson where
  enrollmentId : String
  userId : String
  classId : String
  enrolledAt : String
  enrollment : String
  isActive : Bool
deriving DecidableEq

inductive EnrollPostBody where
  | notFound (error details : String)
  | conflict (error suggestedAction : String)
  | created (message : String) (enrollment : EnrollmentJson)
  | failure (error code : String)
deriving DecidableEq

structure EnrollPostReply where
  status : Nat
  body : EnrollPostBody
deriving DecidableEq

/-- Server-generated values of one insert: the uuidv7 primary key, the
enrolledAt timestamp and the generated human-readable enrollment code. -/
structure Gen where
  freshId : String
  now : Nat
  code : String
deriving DecidableEq

/-- A new enrollment row as the insert builds it: userId and classId from
the request, the remaining columns from their schema defaults. -/
def newEnrollmentRow (g : Gen) (userId classId : String) : EnrollmentRow :=
  { enrollmentId := g.freshId, userId := userId, classId := classId,
    enrolledAt := g.now, enrollment := g.code, isActive := true }

/-- Violation of a unique constraint of the enrollments table: the
unconditional unique index on (userId, classId), the unique enrollment
code column, or the primary key. -/
def enrollmentInsertConflict (rows : List EnrollmentRow) (row : EnrollmentRow) : Bool :=
  rows.any (fun e => e.userId == row.userId && e.classId == row.classId) ||
    rows.any (fun e => e.enrollment == row.enrollment) ||
    rows.any (fun e => e.enrollmentId == row.enrollmentId)

/-- db.insert(enrollments).values(row): fails when a unique index is
violated, otherwise appends the row. -/
def insertEnrollment (db : DB) (row : EnrollmentRow) : Option DB :=
  if enrollmentInsertConflict db.enrollments row then none
  else some { db with enrollments := db.enrollments ++ [row] }

/-- Embedding of the POST /enrollments handler: existence check for the
user, existence check for the class, active-duplicate check, then the
insert; the catch branch maps an insert failure to 500. -/
def enrollmentsRoutePost (db : DB) (g : Gen) (userId classId : String) :
    EnrollPostReply × DB :=
  if !(db.users.any (fun u => u.id == userId)) then
    (⟨404, .notFound "User not found" ("No user found with ID: " ++ userId)⟩, db)
  else if !(db.classes.any (fun c => c.id == classId)) then
    (⟨404, .notFound "Class not found" ("No class found with ID: " ++ classId)⟩, db)
  else if db.enrollments.any
      (fun e => e.userId == userId && e.classId == classId && e.isActive) then
    (⟨409, .conflict "Enrollment already exists" "User is already enrolled in this class"⟩, db)
  else
    match insertEnrollment db (newEnrollmentRow g userId classId) with
    | some db2 =>
      (⟨201, .created "Enrollment successfully created"
        { enrollmentId := g.freshId, userId := userId, classId := classId,
          enrolledAt := toISOString g.now, enrollment := g.code,
          isActive := true }⟩, db2)
    | none =>
      (⟨500, .failure "Internal server error while creating enrollment"
        "ENROLLMENT_CREATION_FAILED"⟩, db)

/-! ## Update enrollment (routers/enrollments/enrollments-post.ts, PUT) -/

inductive EnrollPutBody where
  | notFound (error details : String)
  | updated (message : String) (enrollment : EnrollmentJson)
  | failure (error code : String)
deriving DecidableEq

structure EnrollPutReply where
  status : Nat
  body : EnrollPutBody
deriving DecidableEq

/-- db.update(enrollments).set(isActive).where(enrollmentId = id). -/
def setIsActive (rows : List EnrollmentRow) (id : String) (b : Bool) :
    List EnrollmentRow :=
  rows.map (fun e => if e.enrollmentId == id then { e with isActive := b } else e)

/-- Embedding of the PUT /enrollments/:id handler. The body's isActive is
optional; an absent value leaves the update with no column to set, which
the data layer rejects, and the catch maps that to 500. -/
def enrollmentsRoutePut (db : DB) (id : String) (isActive : Option Bool) :
    EnrollPutReply × DB :=
  match db.enrollments.find? (fun e => e.enrollmentId == id) with
  | none =>
    (⟨404, .notFound "Enrollment not found" ("No enrollment found with ID: " ++ id)⟩, db)
  | some _ =>
    match isActive with
    | none =>
      (⟨500, .failure "Internal server error while updating enrollment"
        "ENROLLMENT_UPDATE_FAILED"⟩, db)
    | some b =>
      let rows := setIsActive db.enrollments id b
      match rows.find? (fun e => e.enrollmentId == id) with
      | some e =>
        (⟨200, .updated "Enrollment successfully updated"
          { enrollmentId := e.enrollmentId, userId := e.userId, classId := e.classId,
            enrolledAt := toISOString e.enrolledAt, enrollment := e.enrollment,
            isActive := e.isActive }⟩, { db with enrollments := rows })
      | none =>
        (⟨500, .failure "Internal server error while updating enrollment"
          "ENROLLMENT_UPDATE_FAILED"⟩, { db with enrollments := rows })

/-! ## List enrollments (routers/enrollments/enrollments-get.ts) -/

structure EnrollFilters where
  userId : Option String
  classId : Option String
  isActive : Option Bool
deriving DecidableEq

/-- The where-conditions built from the present query filters. -/
def enrollMatches (f : EnrollFilters) (e : EnrollmentRow) : Bool :=
  (match f.userId with
    | some u => e.userId == u
    | none => true) &&
  (match f.classId with
    | some c => e.classId == c
    | none => true) &&
  (match f.isActive with
    | some b => e.isActive == b
    | none => true)

structure EnrollListItem where
  enrollmentId : String
  userId : String
  classId : String
  enrolledAt : String
  enrollment : String
  isActive : Bool
  userName : String
  userEmail : String
  className : String
  classSemester : String
  classSchedule : String
deriving DecidableEq

/-- The inner joins with users and classes: the row is produced only when
both referenced rows exist. -/
def joinRow (db : DB) (e : EnrollmentRow) : Option EnrollListItem :=
  match db.users.find? (fun u => u.id == e.userId),
      db.classes.find? (fun c => c.id == e.classId) with
  | some u, some c =>
    some ⟨e.enrollmentId, e.userId, e.classId, toISOString e.enrolledAt,
      e.enrollment, e.isActive, u.name, u.email, c.name, c.semester, c.schedule⟩
  | _, _ => none

/-- orderBy(enrollments.enrolledAt): insertion sort, ascending. -/
def insertByTime (e : EnrollmentRow) : List EnrollmentRow → List EnrollmentRow
  | [] => [e]
  | x :: xs =>
    if e.enrolledAt ≤ x.enrolledAt then e :: x :: xs else x :: insertByTime e xs

def sortByTime : List EnrollmentRow → List EnrollmentRow
  | [] => []
  | x :: xs => insertByTime x (sortByTime xs)

structure PaginationJson where
  page : Nat
  limit : Nat
  total : Nat
  pages : Nat
deriving DecidableEq

structure EnrollGetReply where
  status : Nat
  items : List EnrollListItem
  pagination : PaginationJson
deriving DecidableEq

/-- The joined, filtered and ordered result sequence of the list query,
before limit and offset are applied. -/
def joinedSortedEnrollments (db : DB) (f : EnrollFilters) : List EnrollListItem :=
  (sortByTime (db.enrollments.filter (enrollMatches f))).filterMap (joinRow db)

/-- Math.ceil(a / b) for natural a and positive natural b: the exact
rational quotient rounded up (proved equal to the rational ceiling in
`mathCeilDiv_eq_ceil`). The zod schema bounds limit below by 1. -/
def mathCeilDiv (a b : Nat) : Nat := (a + b - 1) / b

/-- Embedding of the GET /enrollments handler: offset = (page-1)*limit,
the page slice of the joined query, the unjoined total count, and
pages = Math.ceil(total / limit). -/
def enrollmentsRouteGet (db : DB) (f : EnrollFilters) (page limit : Nat) :
    EnrollGetReply :=
  let offset := (page - 1) * limit
  let totalResult := (db.enrollments.filter (enrollMatches f)).length
  let totalPages := mathCeilDiv totalResult limit
  ⟨200, ((joinedSortedEnrollments db f).drop offset).take limit,
    ⟨page, limit, totalResult, totalPages⟩⟩

/-! ## Delete teacher (routers/teachers, DELETE /teachers/:id) -/

inductive TeacherDeleteBody where
  | notFound (error details : String)
  | conflict (error message : String) (courseCount classCount : Nat)
  | deleted (message deletedId : String)
  | failure (error code : String)
deriving DecidableEq

structure TeacherDeleteReply where
  status : Nat
  body : TeacherDeleteBody
deriving DecidableEq

/-- Embedding of the DELETE /teachers/:id handler: existence check, counts
of owned courses and classes, the cascade guard, then the delete. -/
def teachersRouteDelete (db : DB) (id : String) : TeacherDeleteReply × DB :=
  match db.teachers.find? (fun t => t.id == id) with
  | none =>
    (⟨404, .notFound "Teacher not found" ("No teacher found with ID: " ++ id)⟩, db)
  | some _ =>
    let courseCount := (db.courses.filter (fun c => c.teachersId == id)).length
    let classCount := (db.classes.filter (fun c => c.teacherId == id)).length
    if 0 < courseCount || 0 < classCount then
      (⟨409, .conflict "Teacher has associated courses or classes"
        "Cannot delete a teacher that has associated courses or classes"
        courseCount classCount⟩, db)
    else
      (⟨200, .deleted "Teacher successfully deleted" id⟩,
        { db with teachers := db.teachers.filter (fun t => !(t.id == id)) })

/-! ## Update course (routers/courses, PUT /courses/:id) -/

/-- The parsed partial request body of PUT /courses/:id. The zod schema
enforces a minimum length of 3 on a present title, so a present title is
never the empty string (JavaScript's truthiness test on it). -/
structure CourseUpdate where
  title : Option String
  description : Option String
  department : Option String
  workload : Option String
deriving DecidableEq

inductive CoursePutBody where
  | forbidden (error message : String)
  | notFound (error details : String)
  | conflict (error suggestedAction : String)
  | updated (courseID message : String) (updatedFields : List String)
  | failure (error code : String)
deriving DecidableEq

structure CoursePutReply where
  status : Nat
  body : CoursePutBody
deriving DecidableEq

/-- The update payload spread over the existing row, with updatedAt set
to the current time. -/
def applyCourseUpdate (u : CourseUpdate) (now : Nat) (c : CourseRow) : CourseRow :=
  { c with
    title := u.title.getD c.title,
    description := u.description.getD c.description,
    department := u.department.getD c.department,
    workload := u.workload.getD c.workload,
    updatedAt := now }

/-- Object.keys(updateData): the fields present in the request body. -/
def updatedFieldKeys (u : CourseUpdate) : List String :=
  (if u.title.isSome then ["title"] else []) ++
    (if u.description.isSome then ["description"] else []) ++
    (if u.department.isSome then ["department"] else []) ++
    (if u.workload.isSome then ["workload"] else [])

/-- Embedding of the PUT /courses/:id handler: the role gate on the
caller's own id, the existence check, the role gate on the course owner's
id, the duplicate-title check, then the update. -/
def coursesRoutePut (db : DB) (userRole userId : String) (id : String)
    (body : CourseUpdate) (now : Nat) : CoursePutReply × DB :=
  if extractRole userRole (some userId) then
    (⟨403, .forbidden "Forbidden" "Only instructors or admins can update courses"⟩, db)
  else
    match db.courses.find? (fun c => c.id == id) with
    | none =>
      (⟨404, .notFound "Course not found" ("No course found with ID: " ++ id)⟩, db)
    | some existingCourse =>
      if extractRole userRole (some existingCourse.teachersId) then
        (⟨403, .forbidden "Forbidden" "You can only update courses that you created"⟩, db)
      else if (match body.title with
          | some t =>
            !(t == existingCourse.title) &&
              db.courses.any (fun c => c.title == t && !(c.id == id))
          | none => false) then
        (⟨409, .conflict "Course with this title already exists"
          "Use a different title or update the existing course"⟩, db)
      else
        let courses2 :=
          db.courses.map (fun c => if c.id == id then applyCourseUpdate body now c else c)
        (⟨200, .updated id "Course successfully updated" (updatedFieldKeys body)⟩,
          { db with courses := courses2 })

/-! ## Boolean bridges for the create-enrollment checks -/

theorem bool_not_true {b : Bool} (h : ¬ b = true) : b = false := by
  cases b
  · rfl
  · exact absurd rfl h

theorem userExists_any_iff (db : DB) (userId : String) :
    db.users.any (fun u => u.id == userId) = true ↔ ∃ u ∈ db.users, u.id = userId := by
  simp

theorem classExists_any_iff (db : DB) (classId : String) :
    db.classes.any (fun c => c.id == classId) = true ↔ ∃ c ∈ db.classes, c.id = classId := by
  simp

theorem activeDup_any_iff (db : DB) (userId classId : String) :
    db.enrollments.any
        (fun e => e.userId == userId && e.classId == classId && e.isActive) = true ↔
      ∃ e ∈ db.enrollments, e.userId = userId ∧ e.classId = classId ∧ e.isActive = true := by
  simp [and_assoc]

theorem insertConflict_iff (rows : List EnrollmentRow) (row : EnrollmentRow) :
    enrollmentInsertConflict rows row = true ↔
      (∃ e ∈ rows, e.userId = row.userId ∧ e.classId = row.classId) ∨
        (∃ e ∈ rows, e.enrollment = row.enrollment) ∨
        (∃ e ∈ rows, e.enrollmentId = row.enrollmentId) := by
  simp [enrollmentInsertConflict, or_assoc]

/-! Branch lemmas of the POST /enrollments handler, shared by the
theorems below. -/

theorem post_user_missing (db : DB) (g : Gen) (userId classId : String)
    (h : ¬ ∃ u ∈ db.users, u.id = userId) :
    enrollmentsRoutePost db g userId classId =
      (⟨404, .notFound "User not found" ("No user found with ID: " ++ userId)⟩, db) := by
  have hub : db.users.any (fun u => u.id == userId) = false :=
    bool_not_true (fun hc => h ((userExists_any_iff db userId).1 hc))
  simp [enrollmentsRoutePost, hub]

theorem post_class_missing (db : DB) (g : Gen) (userId classId : String)
    (hu : ∃ u ∈ db.users, u.id = userId)
    (h : ¬ ∃ c ∈ db.classes, c.id = classId) :
    enrollmentsRoutePost db g userId classId =
      (⟨404, .notFound "Class not found" ("No class found with ID: " ++ classId)⟩, db) := by
  have hub : db.users.any (fun u => u.id == userId) = true :=
    (userExists_any_iff db userId).2 hu
  have hcb : db.classes.any (fun c => c.id == classId) = false :=
    bool_not_true (fun hc => h ((classExists_any_iff db classId).1 hc))
  simp [enrollmentsRoutePost, hub, hcb]

theorem post_active_duplicate (db : DB) (g : Gen) (userId classId : String)
    (hu : ∃ u ∈ db.users, u.id = userId)
    (hc : ∃ c ∈ db.classes, c.id = classId)
    (hd : ∃ e ∈ db.enrollments, e.userId = userId ∧ e.classId = classId ∧ e.isActive = true) :
    enrollmentsRoutePost db g userId classId =
      (⟨409, .conflict "Enrollment already exists"
        "User is already enrolled in this class"⟩, db) := by
  have hub : db.users.any (fun u => u.id == userId) = true :=
    (userExists_any_iff db userId).2 hu
  have hcb : db.classes.any (fun c => c.id == classId) = true :=
    (classExists_any_iff db classId).2 hc
  have hdb : db.enrollments.any
      (fun e => e.userId == userId && e.classId == classId && e.isActive) = true :=
    (activeDup_any_iff db userId classId).2 hd
  simp [enrollmentsRoutePost, hub, hcb, hdb]

theorem post_insert_ok (db : DB) (g : Gen) (userId classId : String)
    (hu : ∃ u ∈ db.users, u.id = userId)
    (hc : ∃ c ∈ db.classes, c.id = classId)
    (hnd : ¬ ∃ e ∈ db.enrollments, e.userId = userId ∧ e.classId = classId ∧ e.isActive = true)
    (hcf : ¬ ((∃ e ∈ db.enrollments, e.userId = userId ∧ e.classId = classId) ∨
      (∃ e ∈ db.enrollments, e.enrollment = g.code) ∨
      (∃ e ∈ db.enrollments, e.enrollmentId = g.freshId))) :
    enrollmentsRoutePost db g userId classId =
      (⟨201, .created "Enrollment successfully created"
        ⟨g.freshId, userId, classId, toISOString g.now, g.code, true⟩⟩,
        { db with enrollments := db.enrollments ++ [newEnrollmentRow g userId classId] }) := by
  have hub : db.users.any (fun u => u.id == userId) = true :=
    (userExists_any_iff db userId).2 hu
  have hcb : db.classes.any (fun c => c.id == classId) = true :=
    (classExists_any_iff db classId).2 hc
  have hdb : db.enrollments.any
      (fun e => e.userId == userId && e.classId == classId && e.isActive) = false :=
    bool_not_true (fun hx => hnd ((activeDup_any_iff db userId classId).1 hx))
  have hcfb : enrollmentInsertConflict db.enrollments (newEnrollmentRow g userId classId) = false :=
    bool_not_true (fun hx => hcf ((insertConflict_iff db.enrollments _).1 hx))
  simp [enrollmentsRoutePost, hub, hcb, hdb, insertEnrollment, hcfb]

theorem post_insert_fail (db : DB) (g : Gen) (userId classId : String)
    (hu : ∃ u ∈ db.users, u.id = userId)
    (hc : ∃ c ∈ db.classes, c.id = classId)
    (hnd : ¬ ∃ e ∈ db.enrollments, e.userId = userId ∧ e.classId = classId ∧ e.isActive = true)
    (hcf : (∃ e ∈ db.enrollments, e.userId = userId ∧ e.classId = classId) ∨
      (∃ e ∈ db.enrollments, e.enrollment = g.code) ∨
      (∃ e ∈ db.enrollments, e.enrollmentId = g.freshId)) :
    enrollmentsRoutePost db g userId classId =
      (⟨500, .failure "Internal server error while creating enrollment"
        "ENROLLMENT_CREATION_FAILED"⟩, db) := by
  have hub : db.users.any (fun u => u.id == userId) = true :=
    (userExists_any_iff db userId).2 hu
  have hcb : db.classes.any (fun c => c.id == classId) = true :=
    (classExists_any_iff db classId).2 hc
  have hdb : db.enrollments.any
      (fun e => e.userId == userId && e.classId == classId && e.isActive) = false :=
    bool_not_true (fun hx => hnd ((activeDup_any_iff db userId classId).1 hx))
  have hcfb : enrollmentInsertConflict db.enrollments (newEnrollmentRow g userId classId) = true :=
    (insertConflict_iff db.enrollments _).2 hcf
  simp [enrollmentsRoutePost, hub, hcb, hdb, insertEnrollment, hcfb]

/-! ## Concrete states used by the create-enrollment theorems -/

def userU1 : UserRow := ⟨"u1", "Ana", "ana@mail.com", "hash", "student"⟩

def classC1 : ClassRow := ⟨"c1", "crs1", "t1", "Turma A", "2025.1", "Seg 19h", 0⟩

/-- A state holding only an inactive enrollment of u1 in c1. -/
def dbInactive : DB :=
  ⟨[userU1], [], [], [classC1], [⟨"e0", "u1", "c1", 0, "25.1.1000", false⟩]⟩

/-- A state with the user and the class but no enrollment. -/
def dbPostOk : DB := ⟨[userU1], [], [], [classC1], []⟩

def genA : Gen := ⟨"e1", 0, "25.1.2000"⟩

def genB : Gen := ⟨"e2", 1, "25.1.3000"⟩

/-- C3 (counterexample): in a state with an inactive row for the pair,
the user exists, the class exists and the active-duplicate check passes,
yet the handler returns 500 and no row is created - not the 201 the
claim's final clause asserts. -/
theorem enrollmentsRoutePost_inactive_pair_not_created :
    (∃ u ∈ dbInactive.users, u.id = "u1") ∧
    (∃ c ∈ dbInactive.classes, c.id = "c1") ∧
    (¬ ∃ e ∈ dbInactive.enrollments,
      e.userId = "u1" ∧ e.classId = "c1" ∧ e.isActive = true) ∧
    (enrollmentsRoutePost dbInactive genA "u1" "c1").1.status = 500 ∧
    ¬ (enrollmentsRoutePost dbInactive genA "u1" "c1").1.status = 201 ∧
    (enrollmentsRoutePost dbInactive genA "u1" "c1").2 = dbInactive := by
  refine ⟨by decide, by decide, by decide, by decide, by decide, by decide⟩

/-- C3 (amended): the precondition chain of POST /enrollments is run
sequentially, the first failing check short-circuits with the stated
reply, and in the otherwise-branch the row is inserted and 201 returned
exactly when the insert itself does not violate a unique constraint (no
row for the pair at all - active or not - and fresh generated code and
id); a violated unique constraint yields 500 ENROLLMENT_CREATION_FAILED. -/
theorem enrollmentsRoutePost_chain (db : DB) (g : Gen) (userId classId : String) :
    ((¬ ∃ u ∈ db.users, u.id = userId) →
      enrollmentsRoutePost db g userId classId =
        (⟨404, .notFound "User not found" ("No user found with ID: " ++ userId)⟩, db)) ∧
    ((∃ u ∈ db.users, u.id = userId) → (¬ ∃ c ∈ db.classes, c.id = classId) →
      enrollmentsRoutePost db g userId classId =
        (⟨404, .notFound "Class not found" ("No class found with ID: " ++ classId)⟩, db)) ∧
    ((∃ u ∈ db.users, u.id = userId) → (∃ c ∈ db.classes, c.id = classId) →
      (∃ e ∈ db.enrollments, e.userId = userId ∧ e.classId = classId ∧ e.isActive = true) →
      enrollmentsRoutePost db g userId classId =
        (⟨409, .conflict "Enrollment already exists"
          "User is already enrolled in this class"⟩, db)) ∧
    ((∃ u ∈ db.users, u.id = userId) → (∃ c ∈ db.classes, c.id = classId) →
      (¬ ∃ e ∈ db.enrollments, e.userId = userId ∧ e.classId = classId ∧ e.isActive = true) →
      (¬ ((∃ e ∈ db.enrollments, e.userId = userId ∧ e.classId = classId) ∨
        (∃ e ∈ db.enrollments, e.enrollment = g.code) ∨
        (∃ e ∈ db.enrollments, e.enrollmentId = g.freshId))) →
      enrollmentsRoutePost db g userId classId =
        (⟨201, .created "Enrollment successfully created"
          ⟨g.freshId, userId, classId, toISOString g.now, g.code, true⟩⟩,
          { db with enrollments := db.enrollments ++ [newEnrollmentRow g userId classId] })) ∧
    ((∃ u ∈ db.users, u.id = userId) → (∃ c ∈ db.classes, c.id = classId) →
      (¬ ∃ e ∈ db.enrollments, e.userId = userId ∧ e.classId = classId ∧ e.isActive = true) →
      ((∃ e ∈ db.enrollments, e.userId = userId ∧ e.classId = classId) ∨
        (∃ e ∈ db.enrollments, e.enrollment = g.code) ∨
        (∃ e ∈ db.enrollments, e.enrollmentId = g.freshId)) →
      enrollmentsRoutePost db g userId classId =
        (⟨500, .failure "Internal server error while creating enrollment"
          "ENROLLMENT_CREATION_FAILED"⟩, db)) :=
  ⟨post_user_missing db g userId classId,
    post_class_missing db g userId classId,
    post_active_duplicate db g userId classId,
    post_insert_ok db g userId classId,
    post_insert_fail db g userId classId⟩

/-- C3 witness: the happy path at a concrete state. -/
theorem enrollmentsRoutePost_chain_witness :
    enrollmentsRoutePost dbPostOk genA "u1" "c1" =
      (⟨201, .created "Enrollment successfully created"
        ⟨"e1", "u1", "c1", toISOString 0, "25.1.2000", true⟩⟩,
        { dbPostOk with
          enrollments := dbPostOk.enrollments ++ [newEnrollmentRow genA "u1" "c1"] }) :=
  (enrollmentsRoutePost_chain dbPostOk genA "u1" "c1").2.2.2.1
    (by decide) (by decide) (by decide) (by decide)

/-- C4: whenever a create-enrollment call returns 201, the identical call
run sequentially on the resulting state returns 409. -/
theorem enrollmentsRoutePost_idempotent_conflict (db : DB) (g1 g2 : Gen)
    (userId classId : String)
    (h : (enrollmentsRoutePost db g1 userId classId).1.status = 201) :
    (enrollmentsRoutePost (enrollmentsRoutePost db g1 userId classId).2
      g2 userId classId).1.status = 409 := by
  by_cases hu : ∃ u ∈ db.users, u.id = userId
  · by_cases hc : ∃ c ∈ db.classes, c.id = classId
    · by_cases hd : ∃ e ∈ db.enrollments,
          e.userId = userId ∧ e.classId = classId ∧ e.isActive = true
      · rw [post_active_duplicate db g1 userId classId hu hc hd] at h
        simp at h
      · by_cases hcf : (∃ e ∈ db.enrollments, e.userId = userId ∧ e.classId = classId) ∨
            (∃ e ∈ db.enrollments, e.enrollment = g1.code) ∨
            (∃ e ∈ db.enrollments, e.enrollmentId = g1.freshId)
        · rw [post_insert_fail db g1 userId classId hu hc hd hcf] at h
          simp at h
        · rw [post_insert_ok db g1 userId classId hu hc hd hcf]
          dsimp only
          rw [post_active_duplicate
            { db with enrollments := db.enrollments ++ [newEnrollmentRow g1 userId classId] }
            g2 userId classId hu hc
            ⟨newEnrollmentRow g1 userId classId,
              List.mem_append_right db.enrollments (List.mem_singleton_self _),
              rfl, rfl, rfl⟩]
    · rw [post_class_missing db g1 userId classId hu hc] at h
      simp at h
  · rw [post_user_missing db g1 userId classId hu] at h
    simp at h

/-- C4 witness: first call 201, second call 409 at a concrete state. -/
theorem enrollmentsRoutePost_idempotent_conflict_witness :
    (enrollmentsRoutePost dbPostOk genA "u1" "c1").1.status = 201 ∧
    (enrollmentsRoutePost (enrollmentsRoutePost dbPostOk genA "u1" "c1").2
      genB "u1" "c1").1.status = 409 :=
  ⟨by decide,
    enrollmentsRoutePost_idempotent_conflict dbPostOk genA genB "u1" "c1" (by decide)⟩

/-! ## Schema-level invariants of the enrollments table -/

/-- Referential integrity of the foreign keys of enrollments (enforced by
the schema's references clauses with cascading delete). -/
def refIntegrity (db : DB) : Prop :=
  ∀ e ∈ db.enrollments,
    (∃ u ∈ db.users, u.id = e.userId) ∧ (∃ c ∈ db.classes, c.id = e.classId)

/-- The unconditional unique index ux_enrollments_userId_classId: at most
one row per (userId, classId) pair. -/
def pairUnique (db : DB) : Prop :=
  ∀ e1 ∈ db.enrollments, ∀ e2 ∈ db.enrollments,
    e1.userId = e2.userId → e1.classId = e2.classId → e1 = e2

/-- C9: in any schema-consistent state holding an inactive row for the
pair, the create call passes the active-only pre-check but the insert
violates the unconditional unique index, so the handler returns 500 with
code ENROLLMENT_CREATION_FAILED and the state is unchanged. -/
theorem enrollmentsRoutePost_inactive_500 (db : DB) (g : Gen) (userId classId : String)
    (href : refIntegrity db) (huniq : pairUnique db)
    (hrow : ∃ e ∈ db.enrollments,
      e.userId = userId ∧ e.classId = classId ∧ e.isActive = false) :
    enrollmentsRoutePost db g userId classId =
      (⟨500, .failure "Internal server error while creating enrollment"
        "ENROLLMENT_CREATION_FAILED"⟩, db) := by
  obtain ⟨e, he, heu, hec, hea⟩ := hrow
  obtain ⟨hu, hc⟩ := href e he
  rw [heu] at hu
  rw [hec] at hc
  refine post_insert_fail db g userId classId hu hc ?_ (Or.inl ⟨e, he, heu, hec⟩)
  rintro ⟨e2, he2, h2u, h2c, h2a⟩
  have he12 : e2 = e := huniq e2 he2 e he (h2u.trans heu.symm) (h2c.trans hec.symm)
  rw [he12] at h2a
  rw [h2a] at hea
  exact Bool.noConfusion hea

/-- C9 witness: a concrete consistent state with an inactive row. -/
theorem enrollmentsRoutePost_inactive_500_witness :
    refIntegrity dbInactive ∧ pairUnique dbInactive ∧
    (∃ e ∈ dbInactive.enrollments,
      e.userId = "u1" ∧ e.classId = "c1" ∧ e.isActive = false) ∧
    enrollmentsRoutePost dbInactive genB "u1" "c1" =
      (⟨500, .failure "Internal server error while creating enrollment"
        "ENROLLMENT_CREATION_FAILED"⟩, dbInactive) :=
  ⟨by unfold refIntegrity; decide, by unfold pairUnique; decide, by decide,
    enrollmentsRoutePost_inactive_500 dbInactive genB "u1" "c1"
      (by unfold refIntegrity; decide) (by unfold pairUnique; decide) (by decide)⟩

/-- C10: the update-enrollment handler leaves every other table unchanged
and, row by row, changes nothing of an enrollment except possibly the
isActive flag of the addressed row. -/
theorem enrollmentsRoutePut_frame (db : DB) (id : String) (act : Option Bool) :
    (enrollmentsRoutePut db id act).2.users = db.users ∧
    (enrollmentsRoutePut db id act).2.teachers = db.teachers ∧
    (enrollmentsRoutePut db id act).2.courses = db.courses ∧
    (enrollmentsRoutePut db id act).2.classes = db.classes ∧
    List.Forall₂ (fun e e2 : EnrollmentRow =>
        e.enrollmentId = e2.enrollmentId ∧ e.userId = e2.userId ∧
        e.classId = e2.classId ∧ e.enrolledAt = e2.enrolledAt ∧
        e.enrollment = e2.enrollment ∧
        (¬ e.enrollmentId = id → e.isActive = e2.isActive))
      db.enrollments (enrollmentsRoutePut db id act).2.enrollments := by
  have hrefl : ∀ l : List EnrollmentRow,
      List.Forall₂ (fun e e2 : EnrollmentRow =>
        e.enrollmentId = e2.enrollmentId ∧ e.userId = e2.userId ∧
        e.classId = e2.classId ∧ e.enrolledAt = e2.enrolledAt ∧
        e.enrollment = e2.enrollment ∧
        (¬ e.enrollmentId = id → e.isActive = e2.isActive)) l l := by
    intro l
    exact List.forall₂_same.2 (fun x _ => ⟨rfl, rfl, rfl, rfl, rfl, fun _ => rfl⟩)
  rcases hf : db.enrollments.find? (fun e => e.enrollmentId == id) with _ | e0
  · have hstate : (enrollmentsRoutePut db id act).2 = db := by
      simp only [enrollmentsRoutePut, hf]
    rw [hstate]
    exact ⟨rfl, rfl, rfl, rfl, hrefl _⟩
  · rcases act with _ | b
    · have hstate : (enrollmentsRoutePut db id none).2 = db := by
        simp only [enrollmentsRoutePut, hf]
      rw [hstate]
      exact ⟨rfl, rfl, rfl, rfl, hrefl _⟩
    · have hmap : List.Forall₂ (fun e e2 : EnrollmentRow =>
          e.enrollmentId = e2.enrollmentId ∧ e.userId = e2.userId ∧
          e.classId = e2.classId ∧ e.enrolledAt = e2.enrolledAt ∧
          e.enrollment = e2.enrollment ∧
          (¬ e.enrollmentId = id → e.isActive = e2.isActive))
          db.enrollments (setIsActive db.enrollments id b) := by
        unfold setIsActive
        rw [List.forall₂_map_right_iff]
        refine List.forall₂_same.2 (fun x _ => ?_)
        by_cases hx : x.enrollmentId == id
        · rw [if_pos hx]
          exact ⟨rfl, rfl, rfl, rfl, rfl, fun hne => absurd (by simpa using hx) hne⟩
        · rw [if_neg hx]
          exact ⟨rfl, rfl, rfl, rfl, rfl, fun _ => rfl⟩
      have hstate : (enrollmentsRoutePut db id (some b)).2 =
          { db with enrollments := setIsActive db.enrollments id b } := by
        simp only [enrollmentsRoutePut, hf]
        split <;> rfl
      rw [hstate]
      exact ⟨rfl, rfl, rfl, rfl, hmap⟩

/-- C5: at PUT /courses/:id, whenever `extractRole` evaluates to true at a
call site the handler replies 403 and leaves the store unchanged, and a
200 update happens only when both call sites returned false. -/
theorem coursesRoutePut_role_gate (db : DB) (role uid cid : String)
    (body : CourseUpdate) (now : Nat) :
    (extractRole role (some uid) = true →
      (coursesRoutePut db role uid cid body now).1.status = 403 ∧
      (coursesRoutePut db role uid cid body now).2 = db) ∧
    (∀ c, db.courses.find? (fun x => x.id == cid) = some c →
      extractRole role (some c.teachersId) = true →
      (coursesRoutePut db role uid cid body now).1.status = 403 ∧
      (coursesRoutePut db role uid cid body now).2 = db) ∧
    ((coursesRoutePut db role uid cid body now).1.status = 200 →
      extractRole role (some uid) = false ∧
      ∃ c, db.courses.find? (fun x => x.id == cid) = some c ∧
        extractRole role (some c.teachersId) = false) := by
  refine ⟨?_, ?_, ?_⟩
  · intro h1
    constructor <;> simp [coursesRoutePut, h1]
  · intro c hfind h2
    by_cases h1 : extractRole role (some uid) = true
    · constructor <;> simp [coursesRoutePut, h1]
    · have h1f := bool_not_true h1
      constructor <;> simp [coursesRoutePut, h1f, hfind, h2]
  · intro h200
    by_cases h1 : extractRole role (some uid) = true
    · simp [coursesRoutePut, h1] at h200
    · have h1f := bool_not_true h1
      rcases hfind : db.courses.find? (fun x => x.id == cid) with _ | c
      · simp [coursesRoutePut, h1f, hfind] at h200
      · by_cases h2 : extractRole role (some c.teachersId) = true
        · simp [coursesRoutePut, h1f, hfind, h2] at h200
        · exact ⟨h1f, c, hfind, bool_not_true h2⟩

def roleV7 : String := "teacher:00000000-0000-7000-8000-000000000000"

def uuidV7 : String := "00000000-0000-7000-8000-000000000000"

def courseCrs1 : CourseRow := ⟨"crs1", "Title", "Desc", "40h", "CS", 0, 0, "t1"⟩

def dbCourses : DB := ⟨[], [], [courseCrs1], [], []⟩

/-- C5 witness: a caller whose role claim makes `extractRole` true is
rejected with 403 and the store is unchanged. -/
theorem coursesRoutePut_role_gate_witness :
    extractRole roleV7 (some uuidV7) = true ∧
    (coursesRoutePut dbCourses roleV7 uuidV7 "crs1" ⟨none, none, none, none⟩ 5).1.status = 403 ∧
    (coursesRoutePut dbCourses roleV7 uuidV7 "crs1" ⟨none, none, none, none⟩ 5).2 = dbCourses := by
  refine ⟨by decide, ?_, ?_⟩
  · exact ((coursesRoutePut_role_gate dbCourses roleV7 uuidV7 "crs1"
      ⟨none, none, none, none⟩ 5).1 (by decide)).1
  · exact ((coursesRoutePut_role_gate dbCourses roleV7 uuidV7 "crs1"
      ⟨none, none, none, none⟩ 5).1 (by decide)).2

/-- C6: DELETE /teachers/:id returns 404 for a missing id; for an existing
teacher owning at least one course or class it returns 409 carrying the
exact owned-course and owned-class counts and deletes nothing; with zero
counts it deletes exactly that teacher's row and returns 200 with the
deleted id. -/
theorem teachersRouteDelete_guard (db : DB) (id : String) :
    (db.teachers.find? (fun t => t.id == id) = none →
      teachersRouteDelete db id =
        (⟨404, .notFound "Teacher not found" ("No teacher found with ID: " ++ id)⟩, db)) ∧
    (∀ t, db.teachers.find? (fun t2 => t2.id == id) = some t →
      (0 < (db.courses.filter (fun c => c.teachersId == id)).length ∨
        0 < (db.classes.filter (fun c => c.teacherId == id)).length) →
      teachersRouteDelete db id =
        (⟨409, .conflict "Teacher has associated courses or classes"
          "Cannot delete a teacher that has associated courses or classes"
          ((db.courses.filter (fun c => c.teachersId == id)).length)
          ((db.classes.filter (fun c => c.teacherId == id)).length)⟩, db)) ∧
    (∀ t, db.teachers.find? (fun t2 => t2.id == id) = some t →
      (db.courses.filter (fun c => c.teachersId == id)).length = 0 →
      (db.classes.filter (fun c => c.teacherId == id)).length = 0 →
      (teachersRouteDelete db id).1 = ⟨200, .deleted "Teacher successfully deleted" id⟩ ∧
      (∀ t2, t2 ∈ (teachersRouteDelete db id).2.teachers ↔ t2 ∈ db.teachers ∧ ¬ t2.id = id) ∧
      (teachersRouteDelete db id).2.users = db.users ∧
      (teachersRouteDelete db id).2.courses = db.courses ∧
      (teachersRouteDelete db id).2.classes = db.classes ∧
      (teachersRouteDelete db id).2.enrollments = db.enrollments) := by
  refine ⟨?_, ?_, ?_⟩
  · intro h
    simp [teachersRouteDelete, h]
  · intro t hfind hcnt
    simp [teachersRouteDelete, hfind, hcnt]
  · intro t hfind hc1 hc2
    refine ⟨?_, ?_, ?_, ?_, ?_, ?_⟩
    · simp [teachersRouteDelete, hfind, hc1, hc2]
    · intro t2
      simp [teachersRouteDelete, hfind, hc1, hc2, List.mem_filter]
    · simp [teachersRouteDelete, hfind, hc1, hc2]
    · simp [teachersRouteDelete, hfind, hc1, hc2]
    · simp [teachersRouteDelete, hfind, hc1, hc2]
    · simp [teachersRouteDelete, hfind, hc1, hc2]

def teacherT1 : TeacherRow := ⟨"t1", "Bia", "bia@mail.com", "hash", "teacher"⟩

def dbTeacher : DB := ⟨[], [teacherT1], [courseCrs1], [], []⟩

/-- C6 witness: a teacher owning one course and no class is refused with
409 and the exact counts. -/
theorem teachersRouteDelete_guard_witness :
    teachersRouteDelete dbTeacher "t1" =
      (⟨409, .conflict "Teacher has associated courses or classes"
        "Cannot delete a teacher that has associated courses or classes" 1 0⟩,
        dbTeacher) := by
  have h := (teachersRouteDelete_guard dbTeacher "t1").2.1 teacherT1
    (by decide) (Or.inl (by decide))
  exact h

/-- Math.ceil of the exact quotient agrees with the rational ceiling. -/
theorem mathCeilDiv_eq_ceil (a b : Nat) (hb : 1 ≤ b) :
    ((mathCeilDiv a b : ℕ) : ℤ) = Int.ceil ((a : ℚ) / (b : ℚ)) := by
  unfold mathCeilDiv
  have hb0 : 0 < b := hb
  have hF1 : a ≤ (a + b - 1) / b * b := by
    rcases Nat.eq_zero_or_pos a with ha | ha
    · simp [ha]
    · have e : a + b - 1 = (a - 1) + b := by omega
      rw [e, Nat.add_div_right _ hb0, Nat.succ_mul, Nat.mul_comm]
      have hdm : b * ((a - 1) / b) + (a - 1) % b = a - 1 := Nat.div_add_mod _ _
      have hml : (a - 1) % b < b := Nat.mod_lt _ hb0
      set p := b * ((a - 1) / b)
      omega
  have hF2 : (a + b - 1) / b * b ≤ a + b - 1 := Nat.div_mul_le_self _ _
  have hbq : (0 : ℚ) < (b : ℚ) := by exact_mod_cast hb0
  have hsub : ((a + b - 1 : ℕ) : ℚ) = (a : ℚ) + (b : ℚ) - 1 := by
    have h1 : 1 ≤ a + b := by omega
    push_cast [Nat.cast_sub h1]
    ring
  symm
  rw [Int.ceil_eq_iff]
  simp only [Int.cast_natCast]
  constructor
  · rw [lt_div_iff₀ hbq]
    have hF2q : (((a + b - 1) / b : ℕ) : ℚ) * (b : ℚ) ≤ (a : ℚ) + (b : ℚ) - 1 := by
      rw [← hsub]
      exact_mod_cast hF2
    linarith
  · rw [div_le_iff₀ hbq]
    exact_mod_cast hF1

/-- C8: the list handler reports page and limit back unchanged, total as
the number of rows matching the filters, pages as the rational ceiling
of total/limit, and serves the slice starting at offset (page-1)*limit. -/
theorem enrollmentsRouteGet_pagination (db : DB) (f : EnrollFilters) (page limit : Nat)
    (hp : 1 ≤ page) (hl : 1 ≤ limit) :
    (enrollmentsRouteGet db f page limit).pagination.page = page ∧
    (enrollmentsRouteGet db f page limit).pagination.limit = limit ∧
    (enrollmentsRouteGet db f page limit).pagination.total =
      (db.enrollments.filter (enrollMatches f)).length ∧
    (((enrollmentsRouteGet db f page limit).pagination.pages : ℕ) : ℤ) =
      Int.ceil (((db.enrollments.filter (enrollMatches f)).length : ℚ) / (limit : ℚ)) ∧
    (enrollmentsRouteGet db f page limit).items =
      ((joinedSortedEnrollments db f).drop ((page - 1) * limit)).take limit := by
  refine ⟨rfl, rfl, rfl, ?_, rfl⟩
  exact mathCeilDiv_eq_ceil _ limit hl

def enrollRowN (i : Nat) : EnrollmentRow := ⟨⟨numDigits i⟩, "u1", "c1", i, ⟨numDigits i⟩, true⟩

def dbList : DB := ⟨[userU1], [], [], [classC1], (List.range 25).map enrollRowN⟩

def noFilters : EnrollFilters := ⟨none, none, none⟩

/-- C8 witness: 25 rows with limit 10 give pages 3, and page 3 serves the
5 rows after offset 20. -/
theorem enrollmentsRouteGet_pagination_witness :
    (enrollmentsRouteGet dbList noFilters 3 10).pagination.pages = 3 ∧
    (enrollmentsRouteGet dbList noFilters 3 10).pagination.total = 25 ∧
    (enrollmentsRouteGet dbList noFilters 3 10).items.length = 5 ∧
    ((enrollmentsRouteGet dbList noFilters 3 10).pagination.page = 3 ∧
      (enrollmentsRouteGet dbList noFilters 3 10).pagination.limit = 10 ∧
      (enrollmentsRouteGet dbList noFilters 3 10).pagination.total =
        (dbList.enrollments.filter (enrollMatches noFilters)).length ∧
      (((enrollmentsRouteGet dbList noFilters 3 10).pagination.pages : ℕ) : ℤ) =
        Int.ceil (((dbList.enrollments.filter (enrollMatches noFilters)).length : ℚ) /
          (((10 : ℕ)) : ℚ)) ∧
      (enrollmentsRouteGet dbList noFilters 3 10).items =
        ((joinedSortedEnrollments dbList noFilters).drop (((3 : ℕ) - 1) * 10)).take 10) :=
  ⟨by decide, by decide, by decide,
    enrollmentsRouteGet_pagination dbList noFilters 3 10 (by decide) (by decide)⟩

end NodeFastify
